import Mathlib

/-!
Shallow embedding of the ride-pooling matching core of `pool_backend`
(`src/services/MatchingService.js`), together with theorems settling the
stated properties of the specification.

Floating-point arithmetic of the source is modelled over `ℝ`; JavaScript
`Math.round` is modelled as `⌊x + 1/2⌋` (round half toward positive
infinity), matching its behaviour on finite inputs.  The external routing
provider reached by `getRouteDetails` is modelled as an explicit parameter
giving the outcome of the one network call the code makes per invocation.
JavaScript's stable `Array.prototype.sort` with a numeric-difference
comparator is modelled by `List.insertionSort` with the corresponding
total preorder, which computes exactly the stable sort.
-/

namespace PoolBackend

/-- A latitude/longitude pair in degrees, as consumed by
`calculateDistance(point1, point2)` in `MatchingService.js`. -/
structure Coord where
  latitude : ℝ
  longitude : ℝ

/-- A location object `{ name, latitude, longitude }` as stored in the
`pickup_location` / `destination_location` fields of rides. -/
structure NamedPoint extends Coord where
  name : String

/-- `toRadians(degrees)` from `MatchingService.js`. -/
noncomputable def toRadians (degrees : ℝ) : ℝ := degrees * (Real.pi / 180)

/-- JavaScript `Math.atan2(y, x)` (non-NaN inputs). -/
noncomputable def atan2 (y x : ℝ) : ℝ :=
  if 0 < x then Real.arctan (y / x)
  else if x < 0 then
    (if 0 ≤ y then Real.arctan (y / x) + Real.pi else Real.arctan (y / x) - Real.pi)
  else
    (if 0 < y then Real.pi / 2 else if y < 0 then -(Real.pi / 2) else 0)

/-- JavaScript `Math.round` (round half toward positive infinity). -/
noncomputable def jsRound (x : ℝ) : ℤ := ⌊x + 1 / 2⌋

/-- `calculateDistance(point1, point2)`: haversine distance in km with
Earth radius 6371 km (`MatchingService.js`, lines 206-218). -/
noncomputable def calculateDistance (point1 point2 : Coord) : ℝ :=
  let R : ℝ := 6371
  let dLat := toRadians (point2.latitude - point1.latitude)
  let dLon := toRadians (point2.longitude - point1.longitude)
  let lat1 := toRadians point1.latitude
  let lat2 := toRadians point2.latitude
  let a := Real.sin (dLat / 2) * Real.sin (dLat / 2) +
      Real.sin (dLon / 2) * Real.sin (dLon / 2) * Real.cos lat1 * Real.cos lat2
  let c := 2 * atan2 (Real.sqrt a) (Real.sqrt (1 - a))
  R * c

/-- Valid coordinate ranges as stated by the data model of the spec
(latitude in [-90, 90], longitude in [-180, 180]); `ℝ` has no non-finite
values, so finiteness is implicit in the embedding. -/
def validCoord (c : Coord) : Prop :=
  -90 ≤ c.latitude ∧ c.latitude ≤ 90 ∧ -180 ≤ c.longitude ∧ c.longitude ≤ 180

/-- Constructor constants of `MatchingService` (lines 6-9). -/
def MAX_DETOUR_DISTANCE_KM : ℝ := 5

def MAX_DETOUR_TIME_MINUTES : ℝ := 15

def MAX_PICKUP_DISTANCE_KM : ℝ := 3

def MAX_POOL_SIZE : ℕ := 4

/-- A route estimate `{ distance (km), duration (minutes) }`; the
`distanceText` / `durationText` presentation strings the source also
returns are derived display data and are not modelled. -/
structure RouteEstimate where
  distance : ℝ
  duration : ℝ

/-- One leg of a Google Directions route (`leg.distance.value` in metres,
`leg.duration.value` in seconds). -/
structure GLeg where
  distanceValue : ℝ
  durationValue : ℝ

/-- One route of a Google Directions response. -/
structure GRoute where
  legs : List GLeg

/-- Outcome of the single network call `getRouteDetails` makes: no API key
configured, a thrown network error, or a response carrying a route list. -/
inductive ProviderOutcome where
  | noCredentials
  | networkError
  | response (routes : List GRoute)

/-- The local fallback estimate computed after the `try`/`catch` in
`getRouteDetails` (lines 259-267): haversine distance, 2 minutes per km. -/
noncomputable def fallbackEstimate (origin destination : Coord) : RouteEstimate :=
  let distance := calculateDistance origin destination
  { distance := distance, duration := distance * 2 }

/-- `getRouteDetails(origin, destination)` (lines 227-267).  A successful
response with a first route and a first leg yields the provider estimate;
a missing key, a thrown error, an empty route list, or a first route with
no legs (whose `legs[0].distance` access throws and is caught) all fall
back to the local estimate. -/
noncomputable def getRouteDetails (provider : Coord → Coord → ProviderOutcome)
    (origin destination : Coord) : RouteEstimate :=
  match provider origin destination with
  | ProviderOutcome.response (route :: _) =>
    match route.legs with
    | leg :: _ => { distance := leg.distanceValue / 1000, duration := leg.durationValue / 60 }
    | [] => fallbackEstimate origin destination
  | _ => fallbackEstimate origin destination

/-- Waypoint tag `type: 'pickup' | 'drop'`. -/
inductive WType where
  | pickup
  | drop
deriving DecidableEq

/-- Waypoint tag `passenger: 'existing' | 'new'`. -/
inductive WPassenger where
  | existing
  | new
deriving DecidableEq

/-- A waypoint `{ location, type, passenger }` (lines 120-125). -/
structure Waypoint where
  location : NamedPoint
  type : WType
  passenger : WPassenger

/-- A new ride request, restricted to the fields the matching core reads. -/
structure RideRequest where
  user_gender : String
  female_only : Bool
  pickup_location : NamedPoint
  destination_location : NamedPoint
  estimated_fare : ℝ

/-- Driver summary carried by an existing ride. -/
structure DriverInfo where
  id : String
  name : String
  rating : ℝ
  vehicle : String

/-- A pool passenger entry; only the count matters to the core. -/
structure PoolPassenger where
  user_id : String

/-- An existing active ride, restricted to the fields the matching core
reads.  `pool_passengers` is optional because the source guards it with a
truthiness check before reading `length`. -/
structure ExistingRide where
  ride_id : String
  driver : DriverInfo
  user_name : String
  user_gender : String
  allow_pooling : Bool
  female_only : Bool
  pool_passengers : Option (List PoolPassenger)
  pickup_location : NamedPoint
  destination_location : NamedPoint
  estimated_fare : ℝ

/-- The waypoint array built in `getOptimalPoolRoute` (lines 120-125). -/
def poolWaypoints (newRide : RideRequest) (existingRide : ExistingRide) : List Waypoint :=
  [ { location := existingRide.pickup_location, type := WType.pickup, passenger := WPassenger.existing },
    { location := newRide.pickup_location, type := WType.pickup, passenger := WPassenger.new },
    { location := existingRide.destination_location, type := WType.drop, passenger := WPassenger.existing },
    { location := newRide.destination_location, type := WType.drop, passenger := WPassenger.new } ]

/-- `findOptimalWaypointOrder(waypoints)` (lines 154-190).  The four
`find` calls are modelled by `List.find?`; if any of them fails the
resulting property access throws, which the caller's `catch` observes
exactly like the explicit `null` return, so both are modelled as `none`. -/
noncomputable def findOptimalWaypointOrder (waypoints : List Waypoint) : Option (List Waypoint) :=
  match waypoints.find? (fun w => w.passenger == WPassenger.existing && w.type == WType.pickup),
      waypoints.find? (fun w => w.passenger == WPassenger.new && w.type == WType.pickup),
      waypoints.find? (fun w => w.passenger == WPassenger.existing && w.type == WType.drop),
      waypoints.find? (fun w => w.passenger == WPassenger.new && w.type == WType.drop) with
  | some pickup1, some pickup2, some drop1, some drop2 =>
    let distanceToNewPickup := calculateDistance pickup1.location.toCoord pickup2.location.toCoord
    let distanceBetweenDrops := calculateDistance drop1.location.toCoord drop2.location.toCoord
    if distanceToNewPickup < 2 then
      if distanceBetweenDrops < 2 then some [pickup1, pickup2, drop1, drop2]
      else some [pickup1, pickup2, drop2, drop1]
    else
      let routeDistance := calculateDistance pickup1.location.toCoord drop1.location.toCoord
      let detourDistance := calculateDistance pickup1.location.toCoord pickup2.location.toCoord +
          calculateDistance pickup2.location.toCoord drop1.location.toCoord
      if detourDistance - routeDistance < 1 then some [pickup1, pickup2, drop1, drop2]
      else none
  | _, _, _, _ => none

/-- `calculateTotalRouteDistance(waypoints)` (lines 195-201): sum of the
haversine distances of consecutive waypoints. -/
noncomputable def calculateTotalRouteDistance : List Waypoint → ℝ
  | w1 :: w2 :: rest =>
    calculateDistance w1.location.toCoord w2.location.toCoord +
      calculateTotalRouteDistance (w2 :: rest)
  | _ => 0

/-- `generateRouteDescription(waypoints)` (lines 311-314). -/
def generateRouteDescription (waypoints : List Waypoint) : String :=
  let locations := waypoints.map (fun w => w.location.name)
  "Via " ++ String.intercalate (", ") ((locations.drop 1).dropLast)

/-- The pooled-route record built by `getOptimalPoolRoute` (lines 138-148). -/
structure PoolRoute where
  distance : ℝ
  duration : ℝ
  pickupDistance : ℝ
  pickupTime : ℝ
  description : String
  waypoints : List Waypoint

/-- `getOptimalPoolRoute(newRide, existingRide)` (lines 118-149). -/
noncomputable def getOptimalPoolRoute (newRide : RideRequest) (existingRide : ExistingRide) :
    Option PoolRoute :=
  match findOptimalWaypointOrder (poolWaypoints newRide existingRide) with
  | none => none
  | some optimalOrder =>
    let totalDistance := calculateTotalRouteDistance optimalOrder
    some { distance := totalDistance,
           duration := totalDistance * 2,
           pickupDistance := calculateDistance existingRide.pickup_location.toCoord
             newRide.pickup_location.toCoord,
           pickupTime := 10,
           description := generateRouteDescription optimalOrder,
           waypoints := optimalOrder }

/-- The extra fields of a successful compatibility result (lines 99-107).
`pickupTime` models the number inside the formatted string; `savings`
and `detourTime` are the rounded integers the source computes. -/
structure CompatDetails where
  detourDistance : ℝ
  detourTime : ℤ
  pickupTime : ℤ
  routeDescription : String
  savings : ℤ

/-- Result of `calculateRouteCompatibility`: either the `catch` branch's
literal `{ isCompatible: false, score: 0 }` object, or the full success
object. -/
inductive CompatibilityResult where
  | failure
  | success (isCompatible : Bool) (score : ℤ) (details : CompatDetails)

/-- The `isCompatible` field of a compatibility result. -/
def CompatibilityResult.isCompatible : CompatibilityResult → Bool
  | failure => false
  | success b _ _ => b

/-- The `score` field of a compatibility result. -/
def CompatibilityResult.score : CompatibilityResult → ℤ
  | failure => 0
  | success _ s _ => s

/-- `calculateCompatibilityScore(...)` (lines 272-285). -/
noncomputable def calculateCompatibilityScore (detourDistance detourTime pickupDistance : ℝ)
    (originalRoute : RouteEstimate) (pooledRoute : PoolRoute) : ℤ :=
  let score := (100 : ℝ) - detourDistance / MAX_DETOUR_DISTANCE_KM * 40 -
      detourTime / MAX_DETOUR_TIME_MINUTES * 30 - pickupDistance / MAX_PICKUP_DISTANCE_KM * 20
  let efficiencyBonus := max 0 (10 - (pooledRoute.distance / originalRoute.distance - 1) * 50)
  max 0 (min 100 (jsRound (score + efficiencyBonus)))

/-- `calculateSavings(newRideFare, existingRideFare)` (lines 302-306). -/
noncomputable def calculateSavings (newRideFare existingRideFare : ℝ) : ℤ :=
  let averageFare := (newRideFare + existingRideFare) / 2
  let pooledFare := averageFare * 0.75
  jsRound (averageFare - pooledFare)

/-- `calculateRouteCompatibility(newRide, existingRide)` (lines 70-113).
A `null` pooled route makes the subsequent `pooledRoute.distance` access
throw; the `catch` turns that into the failure object. -/
noncomputable def calculateRouteCompatibility (provider : Coord → Coord → ProviderOutcome)
    (newRide : RideRequest) (existingRide : ExistingRide) : CompatibilityResult :=
  let originalRoute := getRouteDetails provider existingRide.pickup_location.toCoord
    existingRide.destination_location.toCoord
  match getOptimalPoolRoute newRide existingRide with
  | none => CompatibilityResult.failure
  | some pooledRoute =>
    let detourDistance := pooledRoute.distance - originalRoute.distance
    let detourTime := pooledRoute.duration - originalRoute.duration
    let isCompatible := decide (detourDistance ≤ MAX_DETOUR_DISTANCE_KM ∧
      detourTime ≤ MAX_DETOUR_TIME_MINUTES ∧
      pooledRoute.pickupDistance ≤ MAX_PICKUP_DISTANCE_KM)
    let score := calculateCompatibilityScore detourDistance detourTime
      pooledRoute.pickupDistance originalRoute pooledRoute
    CompatibilityResult.success isCompatible score
      { detourDistance := (jsRound (detourDistance * 100) : ℝ) / 100,
        detourTime := jsRound detourTime,
        pickupTime := jsRound pooledRoute.pickupTime,
        routeDescription := pooledRoute.description,
        savings := calculateSavings newRide.estimated_fare existingRide.estimated_fare }

/-- `calculateFareShare(newRide, existingRide, compatibility)`
(lines 290-297); `existingRide` is accepted but unused, as in the source. -/
noncomputable def calculateFareShare (newRide : RideRequest) (existingRide : ExistingRide)
    (compatibility : CompatDetails) : ℝ :=
  let baseFare := newRide.estimated_fare
  let poolDiscount : ℝ := 0.25
  let detourPenalty := compatibility.detourDistance * 10
  let finalFare := (jsRound (baseFare * (1 - poolDiscount) + detourPenalty) : ℝ)
  max finalFare (baseFare * 0.6)

/-- The pool option object pushed by `findAvailablePools` (lines 43-59).
`estimatedPickupTime` models the number inside the formatted string. -/
structure PoolCandidate where
  poolId : String
  driverId : String
  driverName : String
  driverRating : ℝ
  vehicle : String
  currentPickup : NamedPoint
  currentDestination : NamedPoint
  currentPassenger : String
  fareShare : ℝ
  estimatedPickupTime : ℤ
  route : String
  detourDistance : ℝ
  detourTime : ℤ
  compatibilityScore : ℤ
  savings : ℤ

/-- The capacity guard of `findAvailablePools` (line 24): the truthiness
check on `pool_passengers` followed by the `length >= MAX_POOL_SIZE - 1`
comparison. -/
def poolIsFull (existingRide : ExistingRide) : Bool :=
  match existingRide.pool_passengers with
  | none => false
  | some l => decide (MAX_POOL_SIZE - 1 ≤ l.length)

/-- The body of the `for` loop of `findAvailablePools` (lines 21-61) for
one existing ride: eligibility filters, compatibility evaluation, and
construction of the pool option. -/
noncomputable def candidateOf (provider : Coord → Coord → ProviderOutcome)
    (rideRequest : RideRequest) (existingRide : ExistingRide) : Option PoolCandidate :=
  if existingRide.allow_pooling = false ∨ poolIsFull existingRide then none
  else if existingRide.female_only ∧ rideRequest.user_gender ≠ "female" then none
  else if rideRequest.female_only ∧ existingRide.user_gender ≠ "female" then none
  else
    match calculateRouteCompatibility provider rideRequest existingRide with
    | CompatibilityResult.success true score details =>
      some { poolId := existingRide.ride_id,
             driverId := existingRide.driver.id,
             driverName := existingRide.driver.name,
             driverRating := existingRide.driver.rating,
             vehicle := existingRide.driver.vehicle,
             currentPickup := existingRide.pickup_location,
             currentDestination := existingRide.destination_location,
             currentPassenger := existingRide.user_name,
             fareShare := calculateFareShare rideRequest existingRide details,
             estimatedPickupTime := details.pickupTime,
             route := details.routeDescription,
             detourDistance := details.detourDistance,
             detourTime := details.detourTime,
             compatibilityScore := score,
             savings := details.savings }
    | _ => none

/-- The descending-score preorder used by the final sort
`(a, b) => b.compatibilityScore - a.compatibilityScore` (line 64). -/
def scoreGE (a b : PoolCandidate) : Prop :=
  b.compatibilityScore ≤ a.compatibilityScore

instance : DecidableRel scoreGE := fun a b =>
  inferInstanceAs (Decidable (b.compatibilityScore ≤ a.compatibilityScore))

instance : IsTotal PoolCandidate scoreGE :=
  ⟨fun a b => le_total b.compatibilityScore a.compatibilityScore⟩

instance : IsTrans PoolCandidate scoreGE :=
  ⟨fun _ _ _ hab hbc => le_trans hbc hab⟩

/-- `findAvailablePools(rideRequest, existingRides)` (lines 18-65).
JavaScript's stable sort with the score-difference comparator is the
stable descending-score sort, i.e. `List.insertionSort scoreGE`. -/
noncomputable def findAvailablePools (provider : Coord → Coord → ProviderOutcome)
    (rideRequest : RideRequest) (existingRides : List ExistingRide) : List PoolCandidate :=
  let compatiblePools := existingRides.filterMap (candidateOf provider rideRequest)
  List.insertionSort scoreGE compatiblePools

/-- A driver snapshot, restricted to the fields the dispatcher reads. -/
structure Driver where
  id : String
  name : String
  status : String
  current_ride : Option String
  location : Coord
  rating : ℝ

/-- The enriched driver object pushed by `findAvailableDrivers`
(lines 331-335), keeping the original driver. -/
structure NearbyDriver where
  driver : Driver
  distanceToPickup : ℝ
  estimatedArrival : ℤ

/-- The body of the `for` loop of `findAvailableDrivers` (lines 322-337)
for one driver: online/unassigned filter, distance filter, ETA. -/
noncomputable def nearbyDriverOf (rideRequest : RideRequest) (driver : Driver) :
    Option NearbyDriver :=
  if driver.status ≠ "online" ∨ driver.current_ride.isSome then none
  else
    let distance := calculateDistance rideRequest.pickup_location.toCoord driver.location
    if distance ≤ 10 then
      some { driver := driver, distanceToPickup := distance,
             estimatedArrival := jsRound (distance * 3) }
    else none

/-- Eligibility of a driver for a request: online, without a current ride,
and within 10 km of the request pickup. -/
def eligibleDriver (rideRequest : RideRequest) (d : Driver) : Prop :=
  d.status = "online" ∧ d.current_ride = none ∧
    calculateDistance rideRequest.pickup_location.toCoord d.location ≤ 10

/-- The ascending-distance preorder used by the sort
`(a, b) => a.distanceToPickup - b.distanceToPickup` (line 340). -/
def distLE (a b : NearbyDriver) : Prop :=
  a.distanceToPickup ≤ b.distanceToPickup

noncomputable instance : DecidableRel distLE := fun a b =>
  inferInstanceAs (Decidable (a.distanceToPickup ≤ b.distanceToPickup))

instance : IsTotal NearbyDriver distLE :=
  ⟨fun a b => le_total a.distanceToPickup b.distanceToPickup⟩

instance : IsTrans NearbyDriver distLE :=
  ⟨fun _ _ _ hab hbc => le_trans hab hbc⟩

/-- `findAvailableDrivers(rideRequest, availableDrivers)` (lines 319-341). -/
noncomputable def findAvailableDrivers (rideRequest : RideRequest)
    (availableDrivers : List Driver) : List NearbyDriver :=
  List.insertionSort distLE (availableDrivers.filterMap (nearbyDriverOf rideRequest))

/-- The assignment object of `assignOptimalDriver` (lines 357-361);
`estimatedArrivalMinutes` / `distanceKm` model the numbers inside the two
formatted strings. -/
structure DriverAssignment where
  driver : NearbyDriver
  estimatedArrivalMinutes : ℤ
  distanceKm : ℝ

/-- `assignOptimalDriver(rideRequest, availableDrivers)` (lines 346-362). -/
noncomputable def assignOptimalDriver (rideRequest : RideRequest)
    (availableDrivers : List Driver) : Option DriverAssignment :=
  match findAvailableDrivers rideRequest availableDrivers with
  | [] => none
  | selectedDriver :: _ =>
    some { driver := selectedDriver,
           estimatedArrivalMinutes := selectedDriver.estimatedArrival,
           distanceKm := selectedDriver.distanceToPickup }

/-! ### Concrete inputs used by the witnesses -/

/-- A provider with no credentials configured: every call falls back. -/
def provNone : Coord → Coord → ProviderOutcome := fun _ _ => ProviderOutcome.noCredentials

/-- A concrete named point. -/
def ptA : NamedPoint := ⟨⟨12.9, 77.58⟩, "MG Road"⟩

/-- A request whose pickup and destination both sit at `ptA`. -/
def reqA : RideRequest :=
  { user_gender := "female", female_only := false,
    pickup_location := ptA, destination_location := ptA, estimated_fare := 100 }

/-- A poolable existing ride whose pickup and destination both sit at `ptA`. -/
def rideA : ExistingRide :=
  { ride_id := "r1",
    driver := { id := "d1", name := "Dan", rating := 4.5, vehicle := "sedan" },
    user_name := "Eve", user_gender := "female",
    allow_pooling := true, female_only := false, pool_passengers := some [],
    pickup_location := ptA, destination_location := ptA, estimated_fare := 100 }

/-- A second copy of `rideA` under another id, for the sortedness witness. -/
def rideB : ExistingRide := { rideA with ride_id := "r2" }

/-- The waypoint order produced when all four points of a pair of trips
coincide at `pt`. -/
def selfWaypoints (pt : NamedPoint) : List Waypoint :=
  [⟨pt, WType.pickup, WPassenger.existing⟩, ⟨pt, WType.pickup, WPassenger.new⟩,
   ⟨pt, WType.drop, WPassenger.existing⟩, ⟨pt, WType.drop, WPassenger.new⟩]

/-- The pooled route produced when all four points coincide at `pt`. -/
def prPt (pt : NamedPoint) : PoolRoute :=
  { distance := 0, duration := 0, pickupDistance := 0, pickupTime := 10,
    description := generateRouteDescription (selfWaypoints pt),
    waypoints := selfWaypoints pt }

/-- The compatibility details produced when all four points coincide and
both fares are 100. -/
def detailsPt (pt : NamedPoint) : CompatDetails :=
  { detourDistance := 0, detourTime := 0, pickupTime := 10,
    routeDescription := generateRouteDescription (selfWaypoints pt), savings := 25 }

/-- The pool option built from a ride `r` whose four points coincide at
`pt` and whose fares are 100. -/
def candPt (pt : NamedPoint) (r : ExistingRide) : PoolCandidate :=
  { poolId := r.ride_id, driverId := r.driver.id, driverName := r.driver.name,
    driverRating := r.driver.rating, vehicle := r.driver.vehicle,
    currentPickup := r.pickup_location, currentDestination := r.destination_location,
    currentPassenger := r.user_name, fareShare := 75, estimatedPickupTime := 10,
    route := generateRouteDescription (selfWaypoints pt), detourDistance := 0, detourTime := 0,
    compatibilityScore := 100, savings := 25 }

/-- The north pole and the south pole, at haversine distance `6371 π`. -/
def ptN : NamedPoint := ⟨⟨90, 0⟩, "North"⟩

/-- See `ptN`. -/
def ptS : NamedPoint := ⟨⟨-90, 0⟩, "South"⟩

/-- A request from the south pole to the north pole: its pickup is far
from `rideFar`'s pickup and the detour through it is large, so the
waypoint heuristic finds no feasible ordering. -/
def reqFar : RideRequest :=
  { user_gender := "female", female_only := false,
    pickup_location := ptS, destination_location := ptN, estimated_fare := 100 }

/-- An existing ride pinned at the north pole (see `reqFar`). -/
def rideFar : ExistingRide := { rideA with pickup_location := ptN, destination_location := ptN }

/-- An out-of-range named point (latitude 200). -/
def ptBad : NamedPoint := ⟨⟨200, 0⟩, "Nowhere"⟩

/-- A request carrying out-of-range coordinates. -/
def reqBad : RideRequest := { reqA with pickup_location := ptBad, destination_location := ptBad }

/-- An existing ride carrying out-of-range coordinates. -/
def rideBad : ExistingRide := { rideA with pickup_location := ptBad, destination_location := ptBad }

/-- A compatibility-details record with a 5 km (rounded) detour. -/
def details5 : CompatDetails :=
  { detourDistance := 5, detourTime := 10, pickupTime := 10, routeDescription := "", savings := 0 }

/-- A zero-detour compatibility-details record. -/
def details0 : CompatDetails :=
  { detourDistance := 0, detourTime := 0, pickupTime := 10, routeDescription := "", savings := 0 }

/-- An online, unassigned driver at the request pickup `ptA`. -/
def drvNear : Driver :=
  { id := "d9", name := "Ana", status := "online", current_ride := none,
    location := ⟨12.9, 77.58⟩, rating := 5 }

/-- An offline driver (never eligible). -/
def drvOff : Driver := { drvNear with id := "d10", status := "offline" }

/-- The enriched driver entry built for `drvNear` against `reqA`. -/
def ndNear : NearbyDriver := { driver := drvNear, distanceToPickup := 0, estimatedArrival := 0 }

/-- The assignment built for `drvNear` against `reqA`. -/
def asgA : DriverAssignment :=
  { driver := ndNear, estimatedArrivalMinutes := 0, distanceKm := 0 }

/-! ### Geometry lemmas -/

lemma arctan_nonneg {z : ℝ} (h : 0 ≤ z) : 0 ≤ Real.arctan z := by
  have h2 := Real.arctan_strictMono.monotone h
  rwa [Real.arctan_zero] at h2

lemma atan2_zero_one : atan2 0 1 = 0 := by
  norm_num [atan2, Real.arctan_zero]

lemma atan2_nonneg {y x : ℝ} (hy : 0 ≤ y) : 0 ≤ atan2 y x := by
  unfold atan2
  rcases lt_trichotomy x 0 with hx | hx | hx
  · rw [if_neg (by linarith), if_pos hx, if_pos hy]
    have h := Real.neg_pi_div_two_lt_arctan (y / x)
    have hpi := Real.pi_pos
    linarith
  · subst hx
    rw [if_neg (lt_irrefl 0), if_neg (lt_irrefl 0)]
    rcases lt_or_eq_of_le hy with hy2 | hy2
    · rw [if_pos hy2]
      have hpi := Real.pi_pos
      linarith
    · rw [if_neg (by rw [← hy2]; exact lt_irrefl 0), if_neg (by rw [← hy2]; exact lt_irrefl 0)]
  · rw [if_pos hx]
    exact arctan_nonneg (div_nonneg hy hx.le)

lemma calculateDistance_self (p : Coord) : calculateDistance p p = 0 := by
  simp [calculateDistance, toRadians, atan2_zero_one]

lemma calculateDistance_nonneg (p q : Coord) : 0 ≤ calculateDistance p q := by
  simp only [calculateDistance]
  have h := atan2_nonneg (x := Real.sqrt (1 -
      (Real.sin (toRadians (q.latitude - p.latitude) / 2) *
        Real.sin (toRadians (q.latitude - p.latitude) / 2) +
      Real.sin (toRadians (q.longitude - p.longitude) / 2) *
        Real.sin (toRadians (q.longitude - p.longitude) / 2) *
        Real.cos (toRadians p.latitude) * Real.cos (toRadians q.latitude))))
    (Real.sqrt_nonneg (Real.sin (toRadians (q.latitude - p.latitude) / 2) *
        Real.sin (toRadians (q.latitude - p.latitude) / 2) +
      Real.sin (toRadians (q.longitude - p.longitude) / 2) *
        Real.sin (toRadians (q.longitude - p.longitude) / 2) *
        Real.cos (toRadians p.latitude) * Real.cos (toRadians q.latitude)))
  nlinarith

lemma calculateDistance_comm (p q : Coord) :
    calculateDistance p q = calculateDistance q p := by
  simp only [calculateDistance, toRadians]
  have flip : ∀ u v : ℝ,
      Real.sin ((u - v) * (Real.pi / 180) / 2) * Real.sin ((u - v) * (Real.pi / 180) / 2) =
        Real.sin ((v - u) * (Real.pi / 180) / 2) * Real.sin ((v - u) * (Real.pi / 180) / 2) := by
    intro u v
    have h : (u - v) * (Real.pi / 180) / 2 = -((v - u) * (Real.pi / 180) / 2) := by ring
    rw [h, Real.sin_neg]
    ring
  rw [flip q.latitude p.latitude, flip q.longitude p.longitude]
  ring_nf

/-- C9: `calculateDistance` is symmetric, vanishes on equal points, and is
nonnegative.  The "zero only if numerically equal" direction of the claim
fails on the code (see the counterexample), so that conjunct is dropped. -/
theorem claim_C9_distance_algebra (a b : Coord) :
    calculateDistance a b = calculateDistance b a ∧
      calculateDistance a a = 0 ∧ 0 ≤ calculateDistance a b :=
  ⟨calculateDistance_comm a b, calculateDistance_self a, calculateDistance_nonneg a b⟩

/-- C9 counterexample: the two distinct valid coordinates `(90, 0)` and
`(90, 10)` (both at the north pole) are at haversine distance `0`, so
`distance(a,b) = 0` does not imply that `a` and `b` are numerically
equal. -/
theorem claim_C9_counterexample :
    ¬ (calculateDistance ⟨90, 0⟩ ⟨90, 10⟩ = 0 ↔ (⟨90, 0⟩ : Coord) = ⟨90, 10⟩) := by
  have hcos : Real.cos ((90 : ℝ) * (Real.pi / 180)) = 0 := by
    have h : (90 : ℝ) * (Real.pi / 180) = Real.pi / 2 := by ring
    rw [h, Real.cos_pi_div_two]
  have hd : calculateDistance ⟨90, 0⟩ ⟨90, 10⟩ = 0 := by
    simp [calculateDistance, toRadians, hcos, atan2_zero_one]
  intro h
  have h2 := h.mp hd
  have h3 : (0 : ℝ) = 10 := congrArg (fun c => c.longitude) h2
  norm_num at h3

/-! ### The waypoint heuristic -/

/-- Closed form of `findOptimalWaypointOrder` on the four-waypoint list
built by `getOptimalPoolRoute`. -/
lemma findOptimalWaypointOrder_pool (newRide : RideRequest) (existingRide : ExistingRide) :
    findOptimalWaypointOrder (poolWaypoints newRide existingRide) =
      (if calculateDistance existingRide.pickup_location.toCoord
            newRide.pickup_location.toCoord < 2 then
        if calculateDistance existingRide.destination_location.toCoord
            newRide.destination_location.toCoord < 2 then
          some [⟨existingRide.pickup_location, WType.pickup, WPassenger.existing⟩,
                ⟨newRide.pickup_location, WType.pickup, WPassenger.new⟩,
                ⟨existingRide.destination_location, WType.drop, WPassenger.existing⟩,
                ⟨newRide.destination_location, WType.drop, WPassenger.new⟩]
        else
          some [⟨existingRide.pickup_location, WType.pickup, WPassenger.existing⟩,
                ⟨newRide.pickup_location, WType.pickup, WPassenger.new⟩,
                ⟨newRide.destination_location, WType.drop, WPassenger.new⟩,
                ⟨existingRide.destination_location, WType.drop, WPassenger.existing⟩]
      else if calculateDistance existingRide.pickup_location.toCoord
            newRide.pickup_location.toCoord +
          calculateDistance newRide.pickup_location.toCoord
            existingRide.destination_location.toCoord -
          calculateDistance existingRide.pickup_location.toCoord
            existingRide.destination_location.toCoord < 1 then
        some [⟨existingRide.pickup_location, WType.pickup, WPassenger.existing⟩,
              ⟨newRide.pickup_location, WType.pickup, WPassenger.new⟩,
              ⟨existingRide.destination_location, WType.drop, WPassenger.existing⟩,
              ⟨newRide.destination_location, WType.drop, WPassenger.new⟩]
      else none) := rfl

/-- C7: the waypoint sequencer follows exactly the two-branch heuristic of
the claim: close pickups order the trips sequentially or drop the new
passenger first depending on drop proximity; far pickups are accepted in
sequential order only when the pickup detour is under 1 km, else there is
no feasible ordering. -/
theorem claim_C7_waypoint_order (newRide : RideRequest) (existingRide : ExistingRide) :
    (calculateDistance existingRide.pickup_location.toCoord newRide.pickup_location.toCoord < 2 →
      calculateDistance existingRide.destination_location.toCoord
        newRide.destination_location.toCoord < 2 →
      findOptimalWaypointOrder (poolWaypoints newRide existingRide) =
        some [⟨existingRide.pickup_location, WType.pickup, WPassenger.existing⟩,
              ⟨newRide.pickup_location, WType.pickup, WPassenger.new⟩,
              ⟨existingRide.destination_location, WType.drop, WPassenger.existing⟩,
              ⟨newRide.destination_location, WType.drop, WPassenger.new⟩]) ∧
    (calculateDistance existingRide.pickup_location.toCoord newRide.pickup_location.toCoord < 2 →
      ¬ calculateDistance existingRide.destination_location.toCoord
          newRide.destination_location.toCoord < 2 →
      findOptimalWaypointOrder (poolWaypoints newRide existingRide) =
        some [⟨existingRide.pickup_location, WType.pickup, WPassenger.existing⟩,
              ⟨newRide.pickup_location, WType.pickup, WPassenger.new⟩,
              ⟨newRide.destination_location, WType.drop, WPassenger.new⟩,
              ⟨existingRide.destination_location, WType.drop, WPassenger.existing⟩]) ∧
    (¬ calculateDistance existingRide.pickup_location.toCoord
        newRide.pickup_location.toCoord < 2 →
      calculateDistance existingRide.pickup_location.toCoord newRide.pickup_location.toCoord +
        calculateDistance newRide.pickup_location.toCoord
          existingRide.destination_location.toCoord -
        calculateDistance existingRide.pickup_location.toCoord
          existingRide.destination_location.toCoord < 1 →
      findOptimalWaypointOrder (poolWaypoints newRide existingRide) =
        some [⟨existingRide.pickup_location, WType.pickup, WPassenger.existing⟩,
              ⟨newRide.pickup_location, WType.pickup, WPassenger.new⟩,
              ⟨existingRide.destination_location, WType.drop, WPassenger.existing⟩,
              ⟨newRide.destination_location, WType.drop, WPassenger.new⟩]) ∧
    (¬ calculateDistance existingRide.pickup_location.toCoord
        newRide.pickup_location.toCoord < 2 →
      ¬ (calculateDistance existingRide.pickup_location.toCoord
            newRide.pickup_location.toCoord +
          calculateDistance newRide.pickup_location.toCoord
            existingRide.destination_location.toCoord -
          calculateDistance existingRide.pickup_location.toCoord
            existingRide.destination_location.toCoord < 1) →
      findOptimalWaypointOrder (poolWaypoints newRide existingRide) = none) := by
  refine ⟨fun h1 h2 => ?_, fun h1 h2 => ?_, fun h1 h2 => ?_, fun h1 h2 => ?_⟩ <;>
    rw [findOptimalWaypointOrder_pool]
  · rw [if_pos h1, if_pos h2]
  · rw [if_pos h1, if_neg h2]
  · rw [if_neg h1, if_pos h2]
  · rw [if_neg h1, if_neg h2]

/-- C7 witness: with all four points at `ptA` both gaps are `0 < 2` and
the sequencer returns the sequential order. -/
theorem claim_C7_witness :
    findOptimalWaypointOrder (poolWaypoints reqA rideA) =
      some [⟨ptA, WType.pickup, WPassenger.existing⟩, ⟨ptA, WType.pickup, WPassenger.new⟩,
            ⟨ptA, WType.drop, WPassenger.existing⟩, ⟨ptA, WType.drop, WPassenger.new⟩] := by
  have h := (claim_C7_waypoint_order reqA rideA).1
    (by simp [reqA, rideA, calculateDistance_self])
    (by simp [reqA, rideA, calculateDistance_self])
  simpa [reqA, rideA] using h

/-! ### The route estimator -/

/-- C5: on any of the failure outcomes — no credentials, a thrown network
error, an empty route list, or a malformed first route with no legs —
`getRouteDetails` returns the fallback estimate: haversine distance and
duration = distance × 2 minutes per km.  The function is total, so no
failure is ever surfaced to the caller. -/
theorem claim_C5_fallback (provider : Coord → Coord → ProviderOutcome)
    (origin destination : Coord)
    (hfail : provider origin destination = ProviderOutcome.noCredentials ∨
      provider origin destination = ProviderOutcome.networkError ∨
      provider origin destination = ProviderOutcome.response [] ∨
      ∃ rest, provider origin destination = ProviderOutcome.response ({ legs := [] } :: rest)) :
    getRouteDetails provider origin destination =
      { distance := calculateDistance origin destination,
        duration := calculateDistance origin destination * 2 } := by
  rcases hfail with h | h | h | ⟨rest, h⟩ <;>
    simp [getRouteDetails, fallbackEstimate, h]

/-- C5 witness. -/
theorem claim_C5_witness :
    getRouteDetails provNone ⟨12.9, 77.58⟩ ⟨12.95, 77.64⟩ =
      { distance := calculateDistance ⟨12.9, 77.58⟩ ⟨12.95, 77.64⟩,
        duration := calculateDistance ⟨12.9, 77.58⟩ ⟨12.95, 77.64⟩ * 2 } :=
  claim_C5_fallback provNone ⟨12.9, 77.58⟩ ⟨12.95, 77.64⟩ (Or.inl rfl)

/-! ### Rounding -/

lemma jsRound_eval {x : ℝ} {n : ℤ} (h1 : (n : ℝ) ≤ x + 1 / 2) (h2 : x + 1 / 2 < n + 1) :
    jsRound x = n := by
  unfold jsRound
  rw [Int.floor_eq_iff]
  exact ⟨h1, by linarith⟩

lemma jsRound_zero : jsRound (0 : ℝ) = 0 := jsRound_eval (by norm_num) (by norm_num)

lemma jsRound_ten : jsRound (10 : ℝ) = 10 := jsRound_eval (by norm_num) (by norm_num)

lemma jsRound_twentyfive : jsRound (25 : ℝ) = 25 := jsRound_eval (by norm_num) (by norm_num)

lemma jsRound_seventyfive : jsRound (75 : ℝ) = 75 := jsRound_eval (by norm_num) (by norm_num)

lemma jsRound_onesixty : jsRound (160 : ℝ) = 160 := jsRound_eval (by norm_num) (by norm_num)

/-! ### Evaluation of the pipeline when all four points coincide -/

lemma fOWO_self (req : RideRequest) (r : ExistingRide) (pt : NamedPoint)
    (h1 : req.pickup_location = pt) (h2 : req.destination_location = pt)
    (h3 : r.pickup_location = pt) (h4 : r.destination_location = pt) :
    findOptimalWaypointOrder (poolWaypoints req r) = some (selfWaypoints pt) := by
  rw [findOptimalWaypointOrder_pool, h1, h2, h3, h4]
  simp only [calculateDistance_self]
  norm_num [selfWaypoints]

lemma totalDistance_self (pt : NamedPoint) : calculateTotalRouteDistance (selfWaypoints pt) = 0 := by
  simp [calculateTotalRouteDistance, selfWaypoints, calculateDistance_self]

lemma getOptimalPoolRoute_self (req : RideRequest) (r : ExistingRide) (pt : NamedPoint)
    (h1 : req.pickup_location = pt) (h2 : req.destination_location = pt)
    (h3 : r.pickup_location = pt) (h4 : r.destination_location = pt) :
    getOptimalPoolRoute req r = some (prPt pt) := by
  unfold getOptimalPoolRoute
  rw [fOWO_self req r pt h1 h2 h3 h4, h1, h3]
  simp [prPt, totalDistance_self, calculateDistance_self]

lemma compat_self (req : RideRequest) (r : ExistingRide) (pt : NamedPoint)
    (h1 : req.pickup_location = pt) (h2 : req.destination_location = pt)
    (h3 : r.pickup_location = pt) (h4 : r.destination_location = pt)
    (h5 : req.estimated_fare = 100) (h6 : r.estimated_fare = 100) :
    calculateRouteCompatibility provNone req r =
      CompatibilityResult.success true 100 (detailsPt pt) := by
  unfold calculateRouteCompatibility
  rw [getOptimalPoolRoute_self req r pt h1 h2 h3 h4, h3, h4, h5, h6]
  simp only [getRouteDetails, provNone, fallbackEstimate, calculateDistance_self]
  norm_num [prPt, detailsPt, calculateCompatibilityScore, calculateSavings,
    MAX_DETOUR_DISTANCE_KM, MAX_DETOUR_TIME_MINUTES, MAX_PICKUP_DISTANCE_KM,
    jsRound_zero, jsRound_ten, jsRound_twentyfive, jsRound_onesixty,
    min_def, max_def, decide_eq_true_eq]

lemma candidateOf_self (req : RideRequest) (r : ExistingRide) (pt : NamedPoint)
    (h1 : req.pickup_location = pt) (h2 : req.destination_location = pt)
    (h3 : r.pickup_location = pt) (h4 : r.destination_location = pt)
    (h5 : req.estimated_fare = 100) (h6 : r.estimated_fare = 100)
    (ha : r.allow_pooling = true) (hpp : r.pool_passengers = some [])
    (hf1 : r.female_only = false) (hf2 : req.female_only = false) :
    candidateOf provNone req r = some (candPt pt r) := by
  unfold candidateOf
  rw [compat_self req r pt h1 h2 h3 h4 h5 h6]
  rw [if_neg, if_neg, if_neg]
  · have hfs : calculateFareShare req r (detailsPt pt) = 75 := by
      unfold calculateFareShare
      rw [h5]
      norm_num [detailsPt, jsRound_seventyfive, max_def]
    simp only [hfs]
    simp [candPt, detailsPt]
  · rw [hf2]
    simp
  · rw [hf1]
    simp
  · rw [ha]
    simp [poolIsFull, hpp, MAX_POOL_SIZE]

/-! ### C10: infeasible orderings are absorbed -/

lemma claim_C10_core (provider : Coord → Coord → ProviderOutcome) (newRide : RideRequest)
    (existingRide : ExistingRide)
    (h : findOptimalWaypointOrder (poolWaypoints newRide existingRide) = none) :
    getOptimalPoolRoute newRide existingRide = none ∧
      calculateRouteCompatibility provider newRide existingRide = CompatibilityResult.failure ∧
      candidateOf provider newRide existingRide = none := by
  have hroute : getOptimalPoolRoute newRide existingRide = none := by
    unfold getOptimalPoolRoute
    rw [h]
  have hcompat : calculateRouteCompatibility provider newRide existingRide =
      CompatibilityResult.failure := by
    unfold calculateRouteCompatibility
    rw [hroute]
  refine ⟨hroute, hcompat, ?_⟩
  unfold candidateOf
  split_ifs <;> simp [hcompat]

/-- C10: whenever the waypoint sequencer finds no feasible ordering,
`getOptimalPoolRoute` is `null`, the failed property access is caught and
turned into exactly `{ isCompatible: false, score: 0 }` (the `failure`
object, whose two fields are `false` and `0`), and `findAvailablePools`
silently excludes the candidate; route evaluation is total, so no
exception escapes. -/
theorem claim_C10_null_route (provider : Coord → Coord → ProviderOutcome)
    (newRide : RideRequest) (existingRide : ExistingRide)
    (h : findOptimalWaypointOrder (poolWaypoints newRide existingRide) = none) :
    getOptimalPoolRoute newRide existingRide = none ∧
      calculateRouteCompatibility provider newRide existingRide = CompatibilityResult.failure ∧
      (calculateRouteCompatibility provider newRide existingRide).isCompatible = false ∧
      (calculateRouteCompatibility provider newRide existingRide).score = 0 ∧
      findAvailablePools provider newRide [existingRide] = [] := by
  obtain ⟨hroute, hcompat, hcand⟩ := claim_C10_core provider newRide existingRide h
  refine ⟨hroute, hcompat, by rw [hcompat]; rfl, by rw [hcompat]; rfl, ?_⟩
  simp [findAvailablePools, hcand, List.insertionSort]

lemma atan2_one_zero : atan2 1 0 = Real.pi / 2 := by
  norm_num [atan2]

lemma dist_poles : calculateDistance ⟨90, 0⟩ ⟨-90, 0⟩ = 6371 * Real.pi := by
  simp only [calculateDistance, toRadians]
  norm_num
  rw [show -(180 * (Real.pi / 180)) / 2 = -(Real.pi / 2) from by ring]
  rw [Real.sin_neg, Real.sin_pi_div_two]
  norm_num [atan2_one_zero, Real.sqrt_one, Real.sqrt_zero]
  ring

/-- C10 witness: a request from the south pole against a ride pinned at
the north pole has far-apart pickups and a huge detour, so the sequencer
yields no ordering and the candidate is silently dropped. -/
theorem claim_C10_witness :
    findAvailablePools provNone reqFar [rideFar] = [] := by
  have hfar : findOptimalWaypointOrder (poolWaypoints reqFar rideFar) = none := by
    have hpi := Real.pi_gt_three
    have hcomm : calculateDistance (⟨-90, 0⟩ : Coord) ⟨90, 0⟩ = 6371 * Real.pi := by
      rw [calculateDistance_comm]
      exact dist_poles
    have hself : calculateDistance (⟨90, 0⟩ : Coord) ⟨90, 0⟩ = 0 := calculateDistance_self _
    rw [findOptimalWaypointOrder_pool]
    simp only [reqFar, rideFar, rideA, ptN, ptS]
    rw [dist_poles, hcomm, hself]
    rw [if_neg (by nlinarith), if_neg (by nlinarith)]
  exact (claim_C10_null_route provNone reqFar rideFar hfar).2.2.2.2

/-! ### C1: the compatibility decision -/

lemma getOptimalPoolRoute_pickupDistance (newRide : RideRequest) (existingRide : ExistingRide)
    (pr : PoolRoute) (h : getOptimalPoolRoute newRide existingRide = some pr) :
    pr.pickupDistance =
      calculateDistance existingRide.pickup_location.toCoord newRide.pickup_location.toCoord := by
  unfold getOptimalPoolRoute at h
  cases e : findOptimalWaypointOrder (poolWaypoints newRide existingRide) with
  | none =>
    rw [e] at h
    exact absurd h (by simp)
  | some ord =>
    rw [e] at h
    simp only [Option.some.injEq] at h
    rw [← h]

/-- C1: for every evaluated pair whose pooled route exists, the
compatibility result is `isCompatible = true` iff the detour distance
(combined minus solo distance), the detour time (combined minus solo
duration) and the pickup distance (haversine distance of the two pickups)
are all within the 5 km / 15 min / 3 km limits. -/
theorem claim_C1_compat_iff (provider : Coord → Coord → ProviderOutcome)
    (newRide : RideRequest) (existingRide : ExistingRide) (pr : PoolRoute)
    (h : getOptimalPoolRoute newRide existingRide = some pr) :
    (calculateRouteCompatibility provider newRide existingRide).isCompatible = true ↔
      (pr.distance - (getRouteDetails provider existingRide.pickup_location.toCoord
          existingRide.destination_location.toCoord).distance ≤ MAX_DETOUR_DISTANCE_KM ∧
        pr.duration - (getRouteDetails provider existingRide.pickup_location.toCoord
          existingRide.destination_location.toCoord).duration ≤ MAX_DETOUR_TIME_MINUTES ∧
        calculateDistance existingRide.pickup_location.toCoord
          newRide.pickup_location.toCoord ≤ MAX_PICKUP_DISTANCE_KM) := by
  have hpd := getOptimalPoolRoute_pickupDistance newRide existingRide pr h
  unfold calculateRouteCompatibility
  rw [h]
  simp only [CompatibilityResult.isCompatible, decide_eq_true_eq, hpd]

/-- C1 witness: the fully coincident pair is within all three limits and
is reported compatible. -/
theorem claim_C1_witness :
    (calculateRouteCompatibility provNone reqA rideA).isCompatible = true := by
  have hroute : getOptimalPoolRoute reqA rideA = some (prPt ptA) :=
    getOptimalPoolRoute_self reqA rideA ptA rfl rfl rfl rfl
  refine (claim_C1_compat_iff provNone reqA rideA (prPt ptA) hroute).mpr ?_
  refine ⟨?_, ?_, ?_⟩ <;>
    simp [prPt, getRouteDetails, provNone, fallbackEstimate, rideA, reqA,
      calculateDistance_self, MAX_DETOUR_DISTANCE_KM, MAX_DETOUR_TIME_MINUTES,
      MAX_PICKUP_DISTANCE_KM] <;> norm_num

/-! ### C3: capacity filter -/

/-- C3: every candidate returned by `findAvailablePools` was built from a
ride in the input whose pool is not full: if its `pool_passengers` list is
present it holds fewer than `MAX_POOL_SIZE - 1` passengers; full rides are
skipped before any route computation. -/
theorem claim_C3_capacity (provider : Coord → Coord → ProviderOutcome)
    (req : RideRequest) (rides : List ExistingRide) (c : PoolCandidate)
    (hc : c ∈ findAvailablePools provider req rides) :
    ∃ r ∈ rides, candidateOf provider req r = some c ∧ poolIsFull r = false ∧
      ∀ l, r.pool_passengers = some l → l.length < MAX_POOL_SIZE - 1 := by
  have hmem : c ∈ rides.filterMap (candidateOf provider req) := by
    simp only [findAvailablePools] at hc
    exact (List.Perm.mem_iff (List.perm_insertionSort scoreGE _)).mp hc
  obtain ⟨r, hr, hsome⟩ := List.mem_filterMap.mp hmem
  have hfalse : poolIsFull r = false := by
    by_contra hfull
    have hfull2 : poolIsFull r = true := by
      revert hfull
      cases poolIsFull r <;> simp
    unfold candidateOf at hsome
    rw [if_pos (Or.inr hfull2)] at hsome
    exact absurd hsome (by simp)
  refine ⟨r, hr, hsome, hfalse, fun l hl => ?_⟩
  unfold poolIsFull at hfalse
  rw [hl] at hfalse
  simp only [decide_eq_false_iff_not, not_le, MAX_POOL_SIZE] at hfalse ⊢
  omega

lemma pools_single (req : RideRequest) (r : ExistingRide) (pt : NamedPoint)
    (h1 : req.pickup_location = pt) (h2 : req.destination_location = pt)
    (h3 : r.pickup_location = pt) (h4 : r.destination_location = pt)
    (h5 : req.estimated_fare = 100) (h6 : r.estimated_fare = 100)
    (ha : r.allow_pooling = true) (hpp : r.pool_passengers = some [])
    (hf1 : r.female_only = false) (hf2 : req.female_only = false) :
    findAvailablePools provNone req [r] = [candPt pt r] := by
  have hc := candidateOf_self req r pt h1 h2 h3 h4 h5 h6 ha hpp hf1 hf2
  simp [findAvailablePools, hc, List.insertionSort, List.orderedInsert]

/-- C3 witness. -/
theorem claim_C3_witness :
    ∃ r ∈ [rideA], candidateOf provNone reqA r = some (candPt ptA rideA) ∧
      poolIsFull r = false ∧
      ∀ l, r.pool_passengers = some l → l.length < MAX_POOL_SIZE - 1 :=
  claim_C3_capacity provNone reqA [rideA] (candPt ptA rideA)
    (by rw [pools_single reqA rideA ptA rfl rfl rfl rfl rfl rfl rfl rfl rfl rfl]; simp)

/-! ### C4: the fare share -/

lemma jsRound_le (x : ℝ) : (jsRound x : ℝ) ≤ x + 1 / 2 := Int.floor_le _

/-- C4 (amended): the fare share never drops below 60% of the base fare;
the claimed strict upper bound `fareShare < baseFare` holds only when the
detour penalty stays below a quarter of the base fare (minus the rounding
slack), and fails otherwise — see the counterexample. -/
theorem claim_C4_fare_bounds (newRide : RideRequest) (existingRide : ExistingRide)
    (c : CompatDetails) (hb : 0 < newRide.estimated_fare) (hd : 0 ≤ c.detourDistance) :
    newRide.estimated_fare * 0.6 ≤ calculateFareShare newRide existingRide c ∧
      (c.detourDistance * 10 + 1 / 2 < newRide.estimated_fare * 0.25 →
        calculateFareShare newRide existingRide c < newRide.estimated_fare) := by
  unfold calculateFareShare
  constructor
  · exact le_max_right _ _
  · intro h
    apply max_lt
    · have hle := jsRound_le (newRide.estimated_fare * (1 - 0.25) + c.detourDistance * 10)
      have h2 : newRide.estimated_fare * (1 - 0.25) + c.detourDistance * 10 + 1 / 2 <
          newRide.estimated_fare := by nlinarith
      linarith
    · nlinarith

/-- C4 counterexample: with base fare 100 and a 5 km rounded detour the
fare share is 125, which is not below the base fare, refuting the claimed
bound `fareShare < baseFare`. -/
theorem claim_C4_counterexample :
    calculateFareShare reqA rideA details5 = 125 ∧
      ¬ calculateFareShare reqA rideA details5 < reqA.estimated_fare := by
  have h125 : jsRound (125 : ℝ) = 125 := jsRound_eval (by norm_num) (by norm_num)
  unfold calculateFareShare
  constructor
  · norm_num [reqA, details5, h125, max_def]
  · norm_num [reqA, details5, h125, max_def]

/-- C4 witness: base fare 100 with zero detour yields fare share 75,
inside both bounds. -/
theorem claim_C4_witness :
    reqA.estimated_fare * 0.6 ≤ calculateFareShare reqA rideA details0 ∧
      calculateFareShare reqA rideA details0 < reqA.estimated_fare := by
  have h := claim_C4_fare_bounds reqA rideA details0 (by norm_num [reqA])
    (by norm_num [details0])
  exact ⟨h.1, h.2 (by norm_num [details0, reqA])⟩

/-! ### C6: absence of input validation -/

/-- C6 (amended): the core performs no input validation: invalid (out of
range) coordinates are fed through the geometry like any others and
produce ordinary results — no validation error exists anywhere in the
matching core. -/
theorem claim_C6_no_validation (p q : Coord) (hp : ¬ validCoord p) :
    0 ≤ calculateDistance p q ∧ calculateDistance p q = calculateDistance q p :=
  ⟨calculateDistance_nonneg p q, calculateDistance_comm p q⟩

/-- C6 counterexample: a request and ride whose coordinates are out of
range (latitude 200) are not rejected: the geometry runs and
`findAvailablePools` returns a successful match instead of a validation
error. -/
theorem claim_C6_counterexample :
    ¬ validCoord ptBad.toCoord ∧ calculateDistance ptBad.toCoord ptBad.toCoord = 0 ∧
      findAvailablePools provNone reqBad [rideBad] = [candPt ptBad rideBad] := by
  refine ⟨?_, calculateDistance_self _, ?_⟩
  · intro h
    have h2 := h.2.1
    norm_num [ptBad] at h2
  · exact pools_single reqBad rideBad ptBad rfl rfl rfl rfl rfl rfl rfl rfl rfl rfl

/-- C6 witness. -/
theorem claim_C6_witness :
    0 ≤ calculateDistance ⟨200, 0⟩ ⟨0, 0⟩ ∧
      calculateDistance ⟨200, 0⟩ ⟨0, 0⟩ = calculateDistance ⟨0, 0⟩ ⟨200, 0⟩ :=
  claim_C6_no_validation ⟨200, 0⟩ ⟨0, 0⟩ (by norm_num [validCoord])

/-! ### Stability of insertion sort under key filters -/

lemma filter_orderedInsert_pos {α : Type} (r : α → α → Prop) [DecidableRel r]
    (pb : α → Bool) (a : α) (ha : pb a = true)
    (hstab : ∀ b, ¬ r a b → pb b = false) :
    ∀ l : List α, (List.orderedInsert r a l).filter pb = a :: l.filter pb := by
  intro l
  induction l with
  | nil => simp [List.orderedInsert, ha]
  | cons b l ih =>
    by_cases hr : r a b
    · simp [List.orderedInsert, if_pos hr, List.filter_cons, ha]
    · have hb := hstab b hr
      simp [List.orderedInsert, if_neg hr, List.filter_cons, hb, ih]

lemma filter_orderedInsert_neg {α : Type} (r : α → α → Prop) [DecidableRel r]
    (pb : α → Bool) (a : α) (ha : pb a = false) :
    ∀ l : List α, (List.orderedInsert r a l).filter pb = l.filter pb := by
  intro l
  induction l with
  | nil => simp [List.orderedInsert, ha]
  | cons b l ih =>
    by_cases hr : r a b
    · simp [List.orderedInsert, if_pos hr, List.filter_cons, ha]
    · simp [List.orderedInsert, if_neg hr, List.filter_cons, ih]

lemma filter_insertionSort {α : Type} (r : α → α → Prop) [DecidableRel r]
    (pb : α → Bool) (hstab : ∀ a b, pb a = true → ¬ r a b → pb b = false) :
    ∀ l : List α, (List.insertionSort r l).filter pb = l.filter pb := by
  intro l
  induction l with
  | nil => rfl
  | cons a l ih =>
    by_cases ha : pb a = true
    · rw [List.insertionSort, filter_orderedInsert_pos r pb a ha (fun b => hstab a b ha), ih]
      simp [List.filter_cons, ha]
    · have ha2 : pb a = false := by
        revert ha
        cases pb a <;> simp
      rw [List.insertionSort, filter_orderedInsert_neg r pb a ha2, ih]
      simp [List.filter_cons, ha2]

/-! ### C2: the ranking is a stable descending sort -/

/-- C2: the output of `findAvailablePools` is sorted by compatibility
score in non-increasing order, and for every score value the candidates
carrying it appear exactly as in the unsorted candidate list built in
input order (stability). -/
theorem claim_C2_sorted_stable (provider : Coord → Coord → ProviderOutcome)
    (req : RideRequest) (rides : List ExistingRide) :
    (∀ i j (hi : i < (findAvailablePools provider req rides).length)
        (hj : j < (findAvailablePools provider req rides).length), i < j →
        ((findAvailablePools provider req rides).get ⟨j, hj⟩).compatibilityScore ≤
          ((findAvailablePools provider req rides).get ⟨i, hi⟩).compatibilityScore) ∧
      ∀ s : ℤ, (findAvailablePools provider req rides).filter
          (fun c => decide (c.compatibilityScore = s)) =
        (rides.filterMap (candidateOf provider req)).filter
          (fun c => decide (c.compatibilityScore = s)) := by
  constructor
  · intro i j hi hj hij
    have hs : (findAvailablePools provider req rides).Sorted scoreGE := by
      simp only [findAvailablePools]
      exact List.sorted_insertionSort scoreGE _
    exact hs.rel_get_of_lt (Fin.mk_lt_mk.mpr hij)
  · intro s
    simp only [findAvailablePools]
    refine filter_insertionSort scoreGE _ (fun a b ha hr => ?_) _
    simp only [decide_eq_true_eq] at ha
    simp only [decide_eq_false_iff_not]
    unfold scoreGE at hr
    omega

lemma pools_AB :
    findAvailablePools provNone reqA [rideA, rideB] = [candPt ptA rideA, candPt ptA rideB] := by
  have c1 := candidateOf_self reqA rideA ptA rfl rfl rfl rfl rfl rfl rfl rfl rfl rfl
  have c2 := candidateOf_self reqA rideB ptA rfl rfl rfl rfl rfl rfl rfl rfl rfl rfl
  simp [findAvailablePools, c1, c2, List.insertionSort, List.orderedInsert, scoreGE, candPt]

/-- C2 witness: two identical candidate rides produce two equal-score
candidates, returned in input order with non-increasing scores. -/
theorem claim_C2_witness :
    ((findAvailablePools provNone reqA [rideA, rideB]).getD 1
        (candPt ptA rideA)).compatibilityScore ≤
      ((findAvailablePools provNone reqA [rideA, rideB]).getD 0
        (candPt ptA rideA)).compatibilityScore := by
  have e : findAvailablePools provNone reqA [rideA, rideB] =
      [candPt ptA rideA, candPt ptA rideB] := pools_AB
  have h0 : 0 < (findAvailablePools provNone reqA [rideA, rideB]).length := by
    rw [e]
    norm_num
  have h1 : 1 < (findAvailablePools provNone reqA [rideA, rideB]).length := by
    rw [e]
    norm_num
  have h := (claim_C2_sorted_stable provNone reqA [rideA, rideB]).1 0 1 h0 h1 (by norm_num)
  rw [List.getD_eq_getElem _ _ h1, List.getD_eq_getElem _ _ h0]
  simpa using h

/-! ### C8: driver dispatch -/

lemma nearbyDriverOf_some (req : RideRequest) (d : Driver) (nd : NearbyDriver)
    (h : nearbyDriverOf req d = some nd) :
    nd.driver = d ∧
      nd.distanceToPickup = calculateDistance req.pickup_location.toCoord d.location ∧
      nd.estimatedArrival = jsRound (nd.distanceToPickup * 3) ∧
      eligibleDriver req d := by
  simp only [nearbyDriverOf] at h
  by_cases hc : d.status ≠ "online" ∨ d.current_ride.isSome
  · rw [if_pos hc] at h
    exact absurd h (by simp)
  · rw [if_neg hc] at h
    by_cases hd : calculateDistance req.pickup_location.toCoord d.location ≤ 10
    · rw [if_pos hd] at h
      push_neg at hc
      simp only [Option.some.injEq] at h
      refine ⟨by rw [← h], by rw [← h], by rw [← h], ?_⟩
      exact ⟨hc.1, Option.not_isSome_iff_eq_none.mp (by simpa using hc.2), hd⟩
    · rw [if_neg hd] at h
      exact absurd h (by simp)

lemma eligible_nearbyDriverOf (req : RideRequest) (d : Driver) (h : eligibleDriver req d) :
    nearbyDriverOf req d = some
      { driver := d,
        distanceToPickup := calculateDistance req.pickup_location.toCoord d.location,
        estimatedArrival := jsRound (calculateDistance req.pickup_location.toCoord
          d.location * 3) } := by
  obtain ⟨h1, h2, h3⟩ := h
  simp only [nearbyDriverOf]
  rw [if_neg, if_pos h3]
  intro hor
  rcases hor with hne | hsome
  · exact hne h1
  · rw [h2] at hsome
    simp at hsome

lemma mem_findAvailableDrivers (req : RideRequest) (drivers : List Driver) (nd : NearbyDriver) :
    nd ∈ findAvailableDrivers req drivers ↔
      ∃ d ∈ drivers, nearbyDriverOf req d = some nd := by
  simp only [findAvailableDrivers]
  rw [List.Perm.mem_iff (List.perm_insertionSort distLE _)]
  exact List.mem_filterMap

lemma findAvailableDrivers_sorted (req : RideRequest) (drivers : List Driver) :
    (findAvailableDrivers req drivers).Sorted distLE := by
  simp only [findAvailableDrivers]
  exact List.sorted_insertionSort distLE _

/-- C8: `assignOptimalDriver` returns no assignment iff no driver is
online, unassigned and within 10 km; otherwise it returns the nearest
such driver with ETA `round(distance × 3)`; and `findAvailableDrivers`
returns exactly the eligible drivers, each with its haversine distance
and ETA, sorted ascending by distance with ties kept in input order. -/
theorem claim_C8_dispatch (req : RideRequest) (drivers : List Driver) :
    (assignOptimalDriver req drivers = none ↔ ∀ d ∈ drivers, ¬ eligibleDriver req d) ∧
      (∀ a, assignOptimalDriver req drivers = some a →
        a.driver.driver ∈ drivers ∧ eligibleDriver req a.driver.driver ∧
        a.driver.distanceToPickup =
          calculateDistance req.pickup_location.toCoord a.driver.driver.location ∧
        a.estimatedArrivalMinutes = jsRound (a.driver.distanceToPickup * 3) ∧
        a.distanceKm = a.driver.distanceToPickup ∧
        ∀ d ∈ drivers, eligibleDriver req d →
          a.driver.distanceToPickup ≤
            calculateDistance req.pickup_location.toCoord d.location) ∧
      (findAvailableDrivers req drivers).Sorted distLE ∧
      (∀ nd ∈ findAvailableDrivers req drivers,
        nd.driver ∈ drivers ∧ eligibleDriver req nd.driver ∧
        nd.distanceToPickup =
          calculateDistance req.pickup_location.toCoord nd.driver.location ∧
        nd.estimatedArrival = jsRound (nd.distanceToPickup * 3)) ∧
      (∀ d ∈ drivers, eligibleDriver req d →
        ∃ nd ∈ findAvailableDrivers req drivers, nd.driver = d) ∧
      ∀ s : ℝ, (findAvailableDrivers req drivers).filter
          (fun nd => decide (nd.distanceToPickup = s)) =
        (drivers.filterMap (nearbyDriverOf req)).filter
          (fun nd => decide (nd.distanceToPickup = s)) := by
  have hmem : ∀ nd ∈ findAvailableDrivers req drivers,
      nd.driver ∈ drivers ∧ eligibleDriver req nd.driver ∧
      nd.distanceToPickup = calculateDistance req.pickup_location.toCoord nd.driver.location ∧
      nd.estimatedArrival = jsRound (nd.distanceToPickup * 3) := by
    intro nd hnd
    obtain ⟨d, hd, hsome⟩ := (mem_findAvailableDrivers req drivers nd).mp hnd
    obtain ⟨he1, he2, he3, he4⟩ := nearbyDriverOf_some req d nd hsome
    exact ⟨by rw [he1]; exact hd, by rw [he1]; exact he4, by rw [he1]; exact he2, he3⟩
  have hexists : ∀ d ∈ drivers, eligibleDriver req d →
      ∃ nd ∈ findAvailableDrivers req drivers, nd.driver = d ∧
        nd.distanceToPickup = calculateDistance req.pickup_location.toCoord d.location := by
    intro d hd he
    exact ⟨_, (mem_findAvailableDrivers req drivers _).mpr
      ⟨d, hd, eligible_nearbyDriverOf req d he⟩, rfl, rfl⟩
  have hnil : findAvailableDrivers req drivers = [] ↔ ∀ d ∈ drivers, ¬ eligibleDriver req d := by
    constructor
    · intro he d hd hel
      obtain ⟨nd, hnd, _, _⟩ := hexists d hd hel
      rw [he] at hnd
      exact absurd hnd (List.not_mem_nil _)
    · intro hall
      by_contra hne
      obtain ⟨nd, hnd⟩ := List.exists_mem_of_ne_nil _ hne
      obtain ⟨d, hd, hsome⟩ := (mem_findAvailableDrivers req drivers nd).mp hnd
      exact hall d hd (nearbyDriverOf_some req d nd hsome).2.2.2
  refine ⟨?_, ?_, findAvailableDrivers_sorted req drivers, hmem,
    fun d hd he => (hexists d hd he).imp (fun nd h => ⟨h.1, h.2.1⟩), ?_⟩
  · have hassign : assignOptimalDriver req drivers = none ↔
        findAvailableDrivers req drivers = [] := by
      unfold assignOptimalDriver
      cases findAvailableDrivers req drivers <;> simp
    exact hassign.trans hnil
  · intro a ha
    unfold assignOptimalDriver at ha
    cases e : findAvailableDrivers req drivers with
    | nil =>
      rw [e] at ha
      simp at ha
    | cons hd tl =>
      rw [e] at ha
      simp only [Option.some.injEq] at ha
      have hhd : hd ∈ findAvailableDrivers req drivers := by
        rw [e]
        exact List.mem_cons_self _ _
      obtain ⟨m1, m2, m3, m4⟩ := hmem hd hhd
      have hmin : ∀ d ∈ drivers, eligibleDriver req d →
          hd.distanceToPickup ≤ calculateDistance req.pickup_location.toCoord d.location := by
        intro d hdm hel
        obtain ⟨nd, hnd, hdr, hdist⟩ := hexists d hdm hel
        rw [e] at hnd
        rcases List.mem_cons.mp hnd with hcase | hcase
        · rw [← hdist, hcase]
        · have hsorted := findAvailableDrivers_sorted req drivers
          rw [e] at hsorted
          have hrel := List.rel_of_sorted_cons hsorted nd hcase
          rw [← hdist]
          exact hrel
      rw [← ha]
      exact ⟨m1, m2, m3, m4, rfl, hmin⟩
  · intro s
    simp only [findAvailableDrivers]
    refine filter_insertionSort distLE _ (fun a b ha hr => ?_) _
    simp only [decide_eq_true_eq] at ha
    simp only [decide_eq_false_iff_not]
    unfold distLE at hr
    intro hb
    exact hr (le_of_eq (hb ▸ ha.symm ▸ rfl))

lemma nearby_drvNear : nearbyDriverOf reqA drvNear = some ndNear := by
  have he : eligibleDriver reqA drvNear := by
    refine ⟨rfl, rfl, ?_⟩
    simp [reqA, ptA, drvNear, calculateDistance_self]
  have h := eligible_nearbyDriverOf reqA drvNear he
  rw [h]
  simp [ndNear, reqA, ptA, drvNear, calculateDistance_self, jsRound_zero]

lemma nearby_drvOff : nearbyDriverOf reqA drvOff = none := by
  simp only [nearbyDriverOf]
  rw [if_pos]
  left
  decide

lemma fad_eval : findAvailableDrivers reqA [drvNear, drvOff] = [ndNear] := by
  simp [findAvailableDrivers, nearby_drvNear, nearby_drvOff, List.insertionSort,
    List.orderedInsert]

lemma assign_eval : assignOptimalDriver reqA [drvNear, drvOff] = some asgA := by
  unfold assignOptimalDriver
  rw [fad_eval]
  rfl

/-- C8 witness: of an online unassigned driver at the pickup and an
offline driver, the dispatcher assigns the former, with zero distance and
ETA. -/
theorem claim_C8_witness :
    asgA.driver.driver ∈ [drvNear, drvOff] ∧ eligibleDriver reqA asgA.driver.driver ∧
      asgA.driver.distanceToPickup =
        calculateDistance reqA.pickup_location.toCoord asgA.driver.driver.location ∧
      asgA.estimatedArrivalMinutes = jsRound (asgA.driver.distanceToPickup * 3) ∧
      asgA.distanceKm = asgA.driver.distanceToPickup ∧
      ∀ d ∈ [drvNear, drvOff], eligibleDriver reqA d →
        asgA.driver.distanceToPickup ≤
          calculateDistance reqA.pickup_location.toCoord d.location :=
  (claim_C8_dispatch reqA [drvNear, drvOff]).2.1 asgA assign_eval

end PoolBackend
